import Mathlib

/-!
Shallow embedding of `src/screen.rs` (rcurses): a terminal session controller
that enters the alternate screen buffer, manipulates termios line-discipline
settings, moves the cursor, toggles cursor visibility and restores the
terminal on drop.

Modelling conventions:
* `Termios` is the kernel line-discipline configuration; byte-for-byte
  equality is structural equality of its flag fields.
* The OS side is a `World`: a device table holding the attributes behind the
  standard-output descriptor (`STDOUT_FILENO = 1`) and behind the descriptor
  obtained by opening `/dev/tty` (`World.ttyFd`).
* Each `print!`/`println!` call appends one `String` element (the exact bytes
  written) to an output list.
* Fallible OS calls (`tcgetattr`, `tcsetattr`, `File::open`, the `TIOCGWINSZ`
  ioctl, `stdout().flush()`) take their success/failure from an `Env` record
  or an explicit `ok : Bool` argument, since their outcome is decided by the
  environment, not by this code.
* `cfmakeraw` is a libc collaborator, not code of this repository; operations
  that call it are parameterised over an arbitrary transform
  `cfmr : Termios → Termios`.
-/

/-- Model of `struct termios`: the four flag words; structural equality is
the byte-for-byte equality of the spec. -/
structure Termios where
  c_iflag : Nat
  c_oflag : Nat
  c_cflag : Nat
  c_lflag : Nat
deriving DecidableEq

/-- Mirrors `struct TermDim { height: u16, width: u16 }`. -/
structure TermDim where
  height : Nat
  width : Nat
deriving DecidableEq

/-- Mirrors `pub enum CursorState { Solid, Blinking, Off }`. -/
inductive CursorState where
  | Solid
  | Blinking
  | Off
deriving DecidableEq

/-- Mirrors `CursorState::is_solid`. -/
def CursorState.is_solid : CursorState → Bool
  | CursorState.Solid => true
  | _ => false

/-- Mirrors `CursorState::is_blinking`. -/
def CursorState.is_blinking : CursorState → Bool
  | CursorState.Blinking => true
  | _ => false

/-- Mirrors `CursorState::is_off`. -/
def CursorState.is_off : CursorState → Bool
  | CursorState.Off => true
  | _ => false

/-- Mirrors `pub enum ModeState { Default, Cbreak, Raw }`. -/
inductive ModeState where
  | Default
  | Cbreak
  | Raw
deriving DecidableEq

/-- `const ESCAPE: char = 27 as char`. -/
def ESCAPE : Char := Char.ofNat 27

/-- `const BEL: char = 7 as char`. -/
def BEL : Char := Char.ofNat 7

/-- One-character string holding ESC, used to spell out the `format!` strings. -/
def escS : String := String.mk [ESCAPE]

/-- Bytes of `format!("{0}7{0}[?1049h", ESCAPE)`: the alt-screen-enter sequence. -/
def turnOnStr : String := escS ++ "7" ++ escS ++ "[?1049h"

/-- Bytes of `format!("{0}[2J{0}[?1049l{0}8", ESCAPE)`: the alt-screen-exit sequence. -/
def turnOffStr : String := escS ++ "[2J" ++ escS ++ "[?1049l" ++ escS ++ "8"

/-- Bytes of `print!("{}[?25h", ESCAPE)`: the show-cursor sequence. -/
def showCursorStr : String := escS ++ "[?25h"

/-- Bytes of `print!("{}[?25l", ESCAPE)`: the hide-cursor sequence. -/
def hideCursorStr : String := escS ++ "[?25l"

/-- Bytes of `print!("{}[{};{}H", ESCAPE, y, x)`: the cursor-positioning sequence. -/
def moveSeqStr (y x : Nat) : String :=
  escS ++ "[" ++ toString y ++ ";" ++ toString x ++ "H"

/-- Bytes of `print!("{}]2;{}{}", ESCAPE, title, BEL)`: the window-title sequence. -/
def titleSeqStr (title : String) : String :=
  escS ++ "]2;" ++ title ++ String.mk [BEL]

/-- Bytes of `println!("FAILURE!")`, emitted on the line-discipline read
failure path of `Screen::new`. -/
def failureLine : String := "FAILURE!\n"

/-- `::libc::STDOUT_FILENO` (descriptor number of standard output). -/
def STDOUT_FILENO : Int := 1

/-- Mirrors `pub struct Screen`. -/
structure Screen where
  turn_on : String
  turn_off : String
  dims : TermDim
  cur_pos : TermDim
  term_original : Termios
  term_settings : Termios
  term_descript : Int
  cursor_state : CursorState
  state_mode : ModeState
deriving DecidableEq

/-- OS-side state: the device table seen through file descriptors. `ttyFd` is
the raw descriptor returned by opening `/dev/tty`; `stdoutDev` and `ttyDev`
are the line-discipline attributes of the devices behind `STDOUT_FILENO` and
`ttyFd` respectively (distinct devices model a redirected standard output). -/
structure World where
  ttyFd : Int
  stdoutDev : Termios
  ttyDev : Termios
deriving DecidableEq

/-- Device-table read: what a successful `tcgetattr(fd, ..)` stores. Only ever
applied to `STDOUT_FILENO` or `World.ttyFd`. -/
def devGet (fd : Int) (w : World) : Termios :=
  if fd = STDOUT_FILENO then w.stdoutDev
  else if fd = w.ttyFd then w.ttyDev
  else w.stdoutDev

/-- Device-table write: what a successful `tcsetattr(fd, TCSANOW, &t)` does. -/
def devSet (fd : Int) (t : Termios) (w : World) : World :=
  if fd = STDOUT_FILENO then { w with stdoutDev := t }
  else if fd = w.ttyFd then { w with ttyDev := t }
  else w

/-- Environment outcomes of the OS calls made during `Screen::new`:
`isatty` is whether `isatty(STDOUT_FILENO) != 0`; `queryDim` is the result of
`TermDim::query()` (covering both its internal `/dev/tty` open and the
`TIOCGWINSZ` ioctl); `openTtyOk` is whether `File::open("/dev/tty")` succeeds
in `new`; `fromFdOk` whether `Termios::from_fd` succeeds; `tcgetattr1Ok` and
`tcgetattr2Ok` the two explicit `tcgetattr(out.term_descript, ..)` calls. -/
structure Env where
  isatty : Bool
  queryDim : Option TermDim
  openTtyOk : Bool
  fromFdOk : Bool
  tcgetattr1Ok : Bool
  tcgetattr2Ok : Bool
deriving DecidableEq

/-- Result of running `Screen::new`: `ok s out` is `Some(screen)` having
written `out`; `noSession out` is `None` having written `out`; `fatal out` is
a panic (an `unwrap()` on a failed result) having written `out`. -/
inductive ConstructResult where
  | ok (s : Screen) (out : List String)
  | noSession (out : List String)
  | fatal (out : List String)
deriving DecidableEq

/-- Mirrors `Screen::new`. Control flow follows the source line by line:
the `isatty` check; `TermDim::query().unwrap()` (a panic when the query
fails); `File::open("/dev/tty")`; `Termios::from_fd` reading through the
`/dev/tty` descriptor; the struct literal with `term_descript:
::libc::STDOUT_FILENO`; the two `tcgetattr(out.term_descript, ..)` calls with
`println!("FAILURE!")` on failure; finally `print!("{}", out.turn_on)`. -/
def Screen.new (env : Env) (w : World) : ConstructResult :=
  if !env.isatty then ConstructResult.noSession []
  else
    match env.queryDim with
    | none => ConstructResult.fatal []
    | some dims =>
      if !env.openTtyOk then ConstructResult.noSession []
      else if !env.fromFdOk then ConstructResult.noSession []
      else
        let term_state := devGet w.ttyFd w
        let out0 : Screen :=
          { turn_on := turnOnStr
            turn_off := turnOffStr
            dims := dims
            cur_pos := { height := 0, width := 0 }
            term_original := term_state
            term_settings := term_state
            term_descript := STDOUT_FILENO
            cursor_state := CursorState.Blinking
            state_mode := ModeState.Default }
        if !env.tcgetattr1Ok then ConstructResult.noSession [failureLine]
        else if !env.tcgetattr2Ok then ConstructResult.noSession [failureLine]
        else
          let out1 := { out0 with term_original := devGet out0.term_descript w
                                  term_settings := devGet out0.term_descript w }
          ConstructResult.ok out1 [out1.turn_on]

/-- Mirrors `Screen::move_cursor`: updates `cur_pos` and prints the
positioning sequence. -/
def Screen.move_cursor (s : Screen) (y x : Nat) : Screen × List String :=
  ({ s with cur_pos := { height := y, width := x } }, [moveSeqStr y x])

/-- Mirrors `Screen::set_title` (`&self`: no state change): prints the
window-title sequence. -/
def Screen.set_title (_s : Screen) (title : String) : List String :=
  [titleSeqStr title]

/-- Mirrors `Screen::set_cursor`: `Solid` returns before the state update;
`Blinking`/`Off` print their sequence only when the recorded state differs,
then unconditionally record the new state. -/
def Screen.set_cursor (s : Screen) (flag : CursorState) : Screen × List String :=
  match flag with
  | CursorState.Solid => (s, [])
  | CursorState.Blinking =>
    let out := if !s.cursor_state.is_blinking then [showCursorStr] else []
    ({ s with cursor_state := flag }, out)
  | CursorState.Off =>
    let out := if !s.cursor_state.is_off then [hideCursorStr] else []
    ({ s with cursor_state := flag }, out)

/-- Mirrors `Screen::update_term`: a `tcsetattr(self.term_descript, TCSANOW,
&self.term_settings)` whose success is decided by the environment (`ok`). -/
def Screen.update_term (s : Screen) (ok : Bool) (w : World) : Option Unit × World :=
  if !ok then (none, w)
  else (some (), devSet s.term_descript s.term_settings w)

/-- Mirrors `Screen::set_mode`: `Default`/`Cbreak` are unimplemented and
return `None`; `Raw` applies `cfmakeraw` (the transform `cfmr`) to
`term_settings`, then `update_term`; `state_mode` is assigned only when the
result `is_some()`. -/
def Screen.set_mode (s : Screen) (flag : ModeState) (cfmr : Termios → Termios)
    (ok : Bool) (w : World) : Option Unit × Screen × World :=
  match flag with
  | ModeState.Default => (none, s, w)
  | ModeState.Cbreak => (none, s, w)
  | ModeState.Raw =>
    let s1 := { s with term_settings := cfmr s.term_settings }
    let r := s1.update_term ok w
    match r.1 with
    | some _ => (some (), { s1 with state_mode := flag }, r.2)
    | none => (none, s1, r.2)

/-- Mirrors `Screen::set_screen_default`: copies `term_original` over
`term_settings`, then `update_term`. -/
def Screen.set_screen_default (s : Screen) (ok : Bool) (w : World) :
    Option Unit × Screen × World :=
  let s1 := { s with term_settings := s.term_original }
  let r := s1.update_term ok w
  (r.1, s1, r.2)

/-- Mirrors `Screen::flush` (`stdout().flush().unwrap()`): returns whether
the call completed, which is exactly whether the underlying flush succeeded —
on failure the `unwrap()` panics. -/
def Screen.flush (flushOk : Bool) : Bool := flushOk

/-- Result of running `impl Drop for Screen`: the bytes printed, the final
screen and device table, and whether the drop glue completed without
panicking (the final `flush` unwraps). -/
structure DropResult where
  out : List String
  scr : Screen
  world : World
  completed : Bool
deriving DecidableEq

/-- Mirrors `impl Drop for Screen`: `set_cursor(Blinking)`;
`set_screen_default().unwrap_or(())` (failure swallowed); `print!("{}",
self.turn_off)`; `self.flush()` (panics exactly when the flush fails). -/
def Screen.dropRun (s : Screen) (restoreOk flushOk : Bool) (w : World) : DropResult :=
  let p1 := s.set_cursor CursorState.Blinking
  let p2 := p1.1.set_screen_default restoreOk w
  { out := p1.2 ++ [p2.2.1.turn_off]
    scr := p2.2.1
    world := p2.2.2
    completed := Screen.flush flushOk }

/-- One in-session operation, with the environment outcomes its OS calls
need: `cfmr` stands for the libc `cfmakeraw` transform, `ok` for whether the
`tcsetattr` (or flush) call succeeds. -/
inductive SessionOp where
  | moveCursorOp (y x : Nat)
  | setTitleOp (title : String)
  | setCursorOp (flag : CursorState)
  | setModeOp (flag : ModeState) (cfmr : Termios → Termios) (ok : Bool)
  | restoreOp (ok : Bool)
  | flushOp (ok : Bool)

/-- State transition of one in-session operation (output discarded). -/
def applyOp (op : SessionOp) (s : Screen) (w : World) : Screen × World :=
  match op with
  | SessionOp.moveCursorOp y x => ((s.move_cursor y x).1, w)
  | SessionOp.setTitleOp _ => (s, w)
  | SessionOp.setCursorOp flag => ((s.set_cursor flag).1, w)
  | SessionOp.setModeOp flag cfmr ok =>
    let r := s.set_mode flag cfmr ok w
    (r.2.1, r.2.2)
  | SessionOp.restoreOp ok =>
    let r := s.set_screen_default ok w
    (r.2.1, r.2.2)
  | SessionOp.flushOp _ => (s, w)

/-- Runs a sequence of in-session operations. -/
def runOps : List SessionOp → Screen → World → Screen × World
  | [], s, w => (s, w)
  | op :: rest, s, w =>
    let r := applyOp op s w
    runOps rest r.1 r.2

/-! Shared helper lemmas. -/

/-- No in-session operation mutates `term_original`, `term_descript` or
`turn_off`. -/
theorem applyOp_pres (op : SessionOp) (s : Screen) (w : World) :
    (applyOp op s w).1.term_original = s.term_original ∧
    (applyOp op s w).1.term_descript = s.term_descript ∧
    (applyOp op s w).1.turn_off = s.turn_off := by
  cases op with
  | moveCursorOp y x => simp [applyOp, Screen.move_cursor]
  | setTitleOp t => simp [applyOp]
  | setCursorOp flag => cases flag <;> simp [applyOp, Screen.set_cursor]
  | setModeOp flag cfmr ok =>
    cases flag <;> cases ok <;> simp [applyOp, Screen.set_mode, Screen.update_term]
  | restoreOp ok =>
    cases ok <;> simp [applyOp, Screen.set_screen_default, Screen.update_term]
  | flushOp ok => simp [applyOp]

/-- No sequence of in-session operations mutates `term_original`,
`term_descript` or `turn_off`. -/
theorem runOps_pres (ops : List SessionOp) (s : Screen) (w : World) :
    (runOps ops s w).1.term_original = s.term_original ∧
    (runOps ops s w).1.term_descript = s.term_descript ∧
    (runOps ops s w).1.turn_off = s.turn_off := by
  induction ops generalizing s w with
  | nil => simp [runOps]
  | cons op rest ih =>
    have h := applyOp_pres op s w
    have h2 := ih (applyOp op s w).1 (applyOp op s w).2
    simp only [runOps]
    exact ⟨h2.1.trans h.1, h2.2.1.trans h.2.1, h2.2.2.trans h.2.2⟩

/-- Inversion of a successful `Screen::new`: the fields of the constructed
screen and the bytes written. -/
theorem new_ok_fields (env : Env) (w : World) (s : Screen) (out : List String)
    (h : Screen.new env w = ConstructResult.ok s out) :
    s.term_original = w.stdoutDev ∧ s.term_settings = w.stdoutDev ∧
    s.term_descript = STDOUT_FILENO ∧ s.cursor_state = CursorState.Blinking ∧
    s.state_mode = ModeState.Default ∧ s.turn_on = turnOnStr ∧
    s.turn_off = turnOffStr ∧ out = [turnOnStr] := by
  obtain ⟨ia, qd, ot, ff, g1, g2⟩ := env
  cases ia
  · simp [Screen.new] at h
  · cases qd with
    | none => simp [Screen.new] at h
    | some d =>
      cases ot
      · simp [Screen.new] at h
      · cases ff
        · simp [Screen.new] at h
        · cases g1
          · simp [Screen.new] at h
          · cases g2
            · simp [Screen.new] at h
            · simp [Screen.new, devGet, STDOUT_FILENO] at h
              obtain ⟨h1, h2⟩ := h
              subst h1; subst h2
              simp [STDOUT_FILENO]

/-! Concrete fixtures used by witnesses and counterexamples. -/

/-- A concrete line-discipline configuration. -/
def t0 : Termios := { c_iflag := 1, c_oflag := 2, c_cflag := 3, c_lflag := 4 }

/-- A second, distinct concrete line-discipline configuration. -/
def t1 : Termios := { c_iflag := 5, c_oflag := 6, c_cflag := 7, c_lflag := 8 }

/-- A concrete device table: `/dev/tty` opened as descriptor 3, standard
output redirected to a device with different attributes. -/
def wC : World := { ttyFd := 3, stdoutDev := t0, ttyDev := t1 }

/-- A fully successful construction environment on a 24×80 terminal. -/
def envC : Env :=
  { isatty := true, queryDim := some { height := 24, width := 80 },
    openTtyOk := true, fromFdOk := true,
    tcgetattr1Ok := true, tcgetattr2Ok := true }

/-- The screen `Screen::new` builds in environment `envC` over `wC`. -/
def sC : Screen :=
  { turn_on := turnOnStr, turn_off := turnOffStr,
    dims := { height := 24, width := 80 },
    cur_pos := { height := 0, width := 0 },
    term_original := t0, term_settings := t0,
    term_descript := STDOUT_FILENO,
    cursor_state := CursorState.Blinking, state_mode := ModeState.Default }

/-- A concrete stand-in for the libc `cfmakeraw` transform. -/
def rawC : Termios → Termios := fun t => { t with c_lflag := 0 }

/-- A concrete sequence of in-session operations: a successful switch to raw
mode followed by hiding the cursor. -/
def opsC : List SessionOp :=
  [SessionOp.setModeOp ModeState.Raw rawC true,
   SessionOp.setCursorOp CursorState.Off]

/-! Claim theorems. -/

/-- C6: `set_mode(Raw)` returns success exactly when the `tcsetattr` call
succeeds; on success it records `Raw`; on failure the recorded mode keeps its
prior value. -/
theorem C6_set_mode_raw (s : Screen) (cfmr : Termios → Termios) (ok : Bool)
    (w : World) :
    (s.set_mode ModeState.Raw cfmr ok w).1 = cond ok (some ()) none ∧
    (s.set_mode ModeState.Raw cfmr ok w).2.1.state_mode =
      cond ok ModeState.Raw s.state_mode := by
  cases ok <;> simp [Screen.set_mode, Screen.update_term]

/-- C9: `set_cursor(Solid)` writes nothing and leaves the screen, its
recorded cursor state included, entirely unchanged. -/
theorem C9_solid_noop (s : Screen) : s.set_cursor CursorState.Solid = (s, []) := rfl

/-- C10: when the `tcsetattr` call fails, `set_mode(Raw)` has already applied
the raw transform to `term_settings` (no rollback), returns failure, and
leaves `state_mode` unchanged. -/
theorem C10_failed_raw_keeps_transform (s : Screen) (cfmr : Termios → Termios)
    (w : World) :
    (s.set_mode ModeState.Raw cfmr false w).2.1.term_settings = cfmr s.term_settings ∧
    (s.set_mode ModeState.Raw cfmr false w).2.1.state_mode = s.state_mode ∧
    (s.set_mode ModeState.Raw cfmr false w).1 = none := by
  simp [Screen.set_mode, Screen.update_term]

/-- C7: two consecutive `set_cursor(Blinking)` calls emit the show-cursor
sequence at most once and the second call emits nothing; likewise two
consecutive `set_cursor(Off)` calls for the hide-cursor sequence. -/
theorem C7_cursor_idempotent (s : Screen) :
    ((s.set_cursor CursorState.Blinking).2 ++
      ((s.set_cursor CursorState.Blinking).1.set_cursor CursorState.Blinking).2).count
        showCursorStr ≤ 1 ∧
    ((s.set_cursor CursorState.Blinking).1.set_cursor CursorState.Blinking).2 = [] ∧
    ((s.set_cursor CursorState.Off).2 ++
      ((s.set_cursor CursorState.Off).1.set_cursor CursorState.Off).2).count
        hideCursorStr ≤ 1 ∧
    ((s.set_cursor CursorState.Off).1.set_cursor CursorState.Off).2 = [] := by
  obtain ⟨a, b, c, d, e, f, g, cs, m⟩ := s
  cases cs <;>
    simp [Screen.set_cursor, CursorState.is_blinking, CursorState.is_off]

/-- C3: when standard output is a terminal but the dimension query fails,
`Screen::new` panics on the `unwrap()` instead of returning `None`. -/
theorem C3_dim_query_fatal :
    Screen.new { envC with queryDim := none } wC = ConstructResult.fatal [] := rfl

/-- C2: after any sequence of in-session operations, a successful
`set_screen_default` writes to the device behind the session's descriptor a
configuration equal byte-for-byte to `term_original`, which equals the
pre-construction attribute snapshot of that device. -/
theorem C2_restore_roundtrip (env : Env) (w : World) (s : Screen)
    (out : List String) (h : Screen.new env w = ConstructResult.ok s out)
    (ops : List SessionOp) (w1 w2 : World) :
    ((runOps ops s w1).1.set_screen_default true w2).1 = some () ∧
    devGet (runOps ops s w1).1.term_descript
      ((runOps ops s w1).1.set_screen_default true w2).2.2 = s.term_original ∧
    s.term_original = w.stdoutDev := by
  have hf := new_ok_fields env w s out h
  have hp := runOps_pres ops s w1
  refine ⟨by simp [Screen.set_screen_default, Screen.update_term], ?_, hf.1⟩
  simp [Screen.set_screen_default, Screen.update_term, devSet, devGet,
    hp.1, hp.2.1, hf.2.2.1, STDOUT_FILENO]

/-- C2 witness: concrete instantiation after a successful raw-mode switch and
a cursor change. -/
theorem C2_restore_roundtrip_witness :
    ((runOps opsC sC wC).1.set_screen_default true wC).1 = some () ∧
    devGet (runOps opsC sC wC).1.term_descript
      ((runOps opsC sC wC).1.set_screen_default true wC).2.2 = sC.term_original ∧
    sC.term_original = wC.stdoutDev :=
  C2_restore_roundtrip envC wC sC [turnOnStr] rfl opsC wC wC

/-- C5: `term_original` is written exactly once, at construction, where it
equals the device snapshot; no sequence of in-session operations nor the
teardown ever changes it. -/
theorem C5_original_immutable (env : Env) (w : World) (s : Screen)
    (out : List String) (h : Screen.new env w = ConstructResult.ok s out)
    (ops : List SessionOp) (w1 : World) (restoreOk flushOk : Bool) (w2 : World) :
    s.term_original = w.stdoutDev ∧
    (runOps ops s w1).1.term_original = s.term_original ∧
    ((runOps ops s w1).1.dropRun restoreOk flushOk w2).scr.term_original =
      s.term_original := by
  have hf := new_ok_fields env w s out h
  have hp := runOps_pres ops s w1
  refine ⟨hf.1, hp.1, ?_⟩
  simp [Screen.dropRun, Screen.set_cursor, Screen.set_screen_default,
    Screen.update_term, hp.1]

/-- C5 witness: concrete instantiation. -/
theorem C5_original_immutable_witness :
    sC.term_original = wC.stdoutDev ∧
    (runOps opsC sC wC).1.term_original = sC.term_original ∧
    ((runOps opsC sC wC).1.dropRun true true wC).scr.term_original =
      sC.term_original :=
  C5_original_immutable envC wC sC [turnOnStr] rfl opsC wC true true wC

/-- C1 counterexample: teardown does not swallow every failure — when the
final `stdout().flush()` fails, the `unwrap()` in `Screen::flush` panics, so
the drop glue does not complete. -/
theorem C1_cex : (sC.dropRun true false wC).completed = false := rfl

/-- C1 (amended): teardown performs all four steps — it sets the recorded
cursor state to Blinking, attempts the line-discipline restoration
(restoring the device snapshot when the call succeeds, swallowing the
failure otherwise), emits the alt-screen-exit sequence exactly once even
after any prior operations including a failed `set_mode(Raw)`, and flushes —
but it completes without panicking exactly when the final flush succeeds. -/
theorem C1_teardown (env : Env) (w : World) (s : Screen) (out : List String)
    (h : Screen.new env w = ConstructResult.ok s out)
    (ops : List SessionOp) (w1 : World) (restoreOk flushOk : Bool) (w2 : World) :
    ((runOps ops s w1).1.dropRun restoreOk flushOk w2).out.count turnOffStr = 1 ∧
    ((runOps ops s w1).1.dropRun restoreOk flushOk w2).scr.cursor_state =
      CursorState.Blinking ∧
    (restoreOk = true →
      devGet (runOps ops s w1).1.term_descript
        ((runOps ops s w1).1.dropRun restoreOk flushOk w2).world = s.term_original) ∧
    ((runOps ops s w1).1.dropRun restoreOk flushOk w2).completed = flushOk := by
  have hf := new_ok_fields env w s out h
  have hp := runOps_pres ops s w1
  have hne : showCursorStr ≠ turnOffStr := by decide
  refine ⟨?_, ?_, ?_, rfl⟩
  · rcases hb : (runOps ops s w1).1.cursor_state.is_blinking with _ | _ <;>
      simp [Screen.dropRun, Screen.set_cursor, Screen.set_screen_default,
        Screen.update_term, hb, hp.2.2, hf.2.2.2.2.2.2.1, List.count_cons, hne]
  · simp [Screen.dropRun, Screen.set_cursor, Screen.set_screen_default,
      Screen.update_term]
  · intro hr
    subst hr
    simp [Screen.dropRun, Screen.set_cursor, Screen.set_screen_default,
      Screen.update_term, devSet, devGet, hp.1, hp.2.1, hf.2.2.1, STDOUT_FILENO]

/-- C1 witness: concrete instantiation covering the exit-sequence count and
the successful-restoration clause. -/
theorem C1_teardown_witness :
    ((runOps opsC sC wC).1.dropRun true true wC).out.count turnOffStr = 1 ∧
    devGet (runOps opsC sC wC).1.term_descript
      ((runOps opsC sC wC).1.dropRun true true wC).world = sC.term_original :=
  ⟨(C1_teardown envC wC sC [turnOnStr] rfl opsC wC true true wC).1,
   (C1_teardown envC wC sC [turnOnStr] rfl opsC wC true true wC).2.2.1 rfl⟩

/-- C4 counterexample: the construction path where the line-discipline read
fails writes the `println!("FAILURE!")` diagnostic line to standard output,
so a failing construction can write bytes. -/
theorem C4_cex :
    Screen.new { envC with tcgetattr1Ok := false } wC =
      ConstructResult.noSession [failureLine] ∧
    failureLine ≠ "" := by
  exact ⟨rfl, by decide⟩

/-- C4 (amended): a successful construction writes exactly the
alt-screen-enter sequence, as its only (hence last) write; every failing or
panicking path writes nothing, except the line-discipline read-failure path,
which writes the `FAILURE!` diagnostic line; when both attribute reads
succeed, that diagnostic is never written. -/
theorem C4_construct_output (env : Env) (w : World) :
    (∀ s out, Screen.new env w = ConstructResult.ok s out → out = [turnOnStr]) ∧
    (∀ out, Screen.new env w = ConstructResult.noSession out →
      out = [] ∨ out = [failureLine]) ∧
    (∀ out, Screen.new env w = ConstructResult.fatal out → out = []) ∧
    ((env.tcgetattr1Ok && env.tcgetattr2Ok) = true →
      Screen.new env w ≠ ConstructResult.noSession [failureLine]) := by
  obtain ⟨ia, qd, ot, ff, g1, g2⟩ := env
  cases ia <;> cases qd <;> cases ot <;> cases ff <;> cases g1 <;> cases g2 <;>
    simp [Screen.new, failureLine]

/-- C4 witness: concrete instantiation on the successful path. -/
theorem C4_construct_output_witness : ([turnOnStr] : List String) = [turnOnStr] :=
  (C4_construct_output envC wC).1 sC [turnOnStr] rfl

/-- C8 counterexample: the descriptor stored by a successful construction is
`STDOUT_FILENO`, not the independently opened `/dev/tty` descriptor, and a
subsequent attribute set through it writes the standard-output device while
leaving the `/dev/tty` device untouched. -/
theorem C8_cex :
    Screen.new envC wC = ConstructResult.ok sC [turnOnStr] ∧
    sC.term_descript ≠ wC.ttyFd ∧
    (sC.update_term true wC).2.ttyDev = wC.ttyDev ∧
    (sC.update_term true wC).2.stdoutDev = sC.term_settings := by
  refine ⟨rfl, by decide, rfl, rfl⟩

/-- C8 (amended): construction opens `/dev/tty` independently, but uses that
descriptor only for the initial `Termios::from_fd` read; the descriptor it
stores — and that every later attribute get/set uses — is `STDOUT_FILENO`,
so a successful attribute set updates the standard-output device and never
the `/dev/tty` device. -/
theorem C8_descriptor (env : Env) (w : World) (s : Screen) (out : List String)
    (h : Screen.new env w = ConstructResult.ok s out) (w' : World) :
    s.term_descript = STDOUT_FILENO ∧
    (s.update_term true w').2.stdoutDev = s.term_settings ∧
    (s.update_term true w').2.ttyDev = w'.ttyDev := by
  have hf := new_ok_fields env w s out h
  refine ⟨hf.2.2.1, ?_, ?_⟩ <;>
    simp [Screen.update_term, devSet, hf.2.2.1, STDOUT_FILENO]

/-- C8 witness: concrete instantiation. -/
theorem C8_descriptor_witness :
    sC.term_descript = STDOUT_FILENO ∧
    (sC.update_term true wC).2.stdoutDev = sC.term_settings ∧
    (sC.update_term true wC).2.ttyDev = wC.ttyDev :=
  C8_descriptor envC wC sC [turnOnStr] rfl wC
